import Mathlib

/-
Verification development for the UberRescue dispatch core.

The embedding mirrors backend/src/services/routeOptimizer.js (GeoMath and
RouteEstimator), the driver matcher findNearestDriver (DriverMatcher), and
the dispatch commit path of backend/src/routes/rides.js (DispatchCoordinator).

Modelling conventions:
- JavaScript numbers are modelled by an arbitrary linear ordered field K
  with a floor structure where the code calls Math.ceil / Math.round; the
  concrete program instantiates K with the reals.
- The geodesic metric haversineDistance is defined over the reals exactly as
  in the source; the structural routines (route generation, matching) take
  the metric as an explicit parameter named dist, since they only ever
  compare and sum its values.  The program composes them with
  haversineDistance.
- Math.random() is modelled by an explicit stream rnd of field values,
  indexed by the position of the call site in the waypoint loop.
- Nullable driver coordinates are modelled by Option K; JavaScript
  truthiness of a number (null, undefined and 0 are falsy) is the
  predicate truthyCoord.
-/

namespace UberRescue

/-- A latitude/longitude pair, as the plain lat/lng objects of the source. -/
structure Coord (K : Type) where
  lat : K
  lng : K
deriving DecidableEq

/-- JavaScript Math.atan2 on real arguments, by branch on the sign of x. -/
noncomputable def atan2 (y x : ℝ) : ℝ :=
  if 0 < x then Real.arctan (y / x)
  else if x < 0 then
    (if 0 ≤ y then Real.arctan (y / x) + Real.pi else Real.arctan (y / x) - Real.pi)
  else if 0 < y then Real.pi / 2
  else if y < 0 then -(Real.pi / 2)
  else 0

/-- The intermediate value a of the haversine formula in the source:
sin(dLat/2)^2 + sin(dLon/2)^2 * cos(lat1) * cos(lat2), in radians. -/
noncomputable def havA (c1 c2 : Coord ℝ) : ℝ :=
  Real.sin ((c2.lat - c1.lat) * Real.pi / 180 / 2) *
      Real.sin ((c2.lat - c1.lat) * Real.pi / 180 / 2) +
    Real.sin ((c2.lng - c1.lng) * Real.pi / 180 / 2) *
        Real.sin ((c2.lng - c1.lng) * Real.pi / 180 / 2) *
      Real.cos (c1.lat * Real.pi / 180) * Real.cos (c2.lat * Real.pi / 180)

/-- haversineDistance of routeOptimizer.js: R * c with R = 6371 and
c = 2 * atan2(sqrt(a), sqrt(1 - a)). -/
noncomputable def haversineDistance (c1 c2 : Coord ℝ) : ℝ :=
  6371 * (2 * atan2 (Real.sqrt (havA c1 c2)) (Real.sqrt (1 - havA c1 c2)))

/-- A hazard zone record as read from the database (models/HazardZone.js):
a circular area with a severity, an activity flag, and display metadata. -/
structure HazardZone (K : Type) where
  id : ℕ
  name : String
  type : String
  severity : ℤ
  centerLatitude : K
  centerLongitude : K
  radius : K
  isActive : Bool
deriving DecidableEq

/-- The projection of a hazard zone reported in hazardZonesAvoided:
the source maps each zone to an object with id, name, type and severity. -/
structure HazardInfo where
  id : ℕ
  name : String
  type : String
  severity : ℤ
deriving DecidableEq

/-- The result object of calculateSafeRoute. -/
structure RouteResult (K : Type) where
  route : List (Coord K)
  distance : K
  duration : ℤ
  estimatedFare : K
  hazardZonesAvoided : List HazardInfo
  safetyScore : ℤ
deriving DecidableEq

section RouteEstimator

variable {K : Type} [LinearOrderedField K]

/-- isPointInHazardZone of routeOptimizer.js: the point is within the zone
when its distance to the zone center is at most the zone radius.  The
metric is abstracted as dist; the source fixes dist := haversineDistance. -/
def isPointInHazardZone (dist : Coord K → Coord K → K)
    (point : Coord K) (hazardZone : HazardZone K) : Bool :=
  decide (dist point ⟨hazardZone.centerLatitude, hazardZone.centerLongitude⟩ ≤
    hazardZone.radius)

variable [FloorRing K]

/-- The segments count of generateWaypoints: Math.ceil(directDistance / 2),
one probe every 2 km along the direct path. -/
def segmentsOf (dist : Coord K → Coord K → K) (start end_ : Coord K) : ℤ :=
  ⌈dist start end_ / 2⌉

/-- The linearly interpolated probe point at index i of segments. -/
def lerpPoint (start end_ : Coord K) (i : ℕ) (segments : ℤ) : Coord K :=
  ⟨start.lat + (end_.lat - start.lat) * ((i : K) / (segments : K)),
   start.lng + (end_.lng - start.lng) * ((i : K) / (segments : K))⟩

/-- The detour point substituted for a hazardous probe point:
each coordinate is offset by (Math.random() - 0.5) * 0.01, with the two
random draws of loop iteration i modelled as rnd (2*i) and rnd (2*i+1). -/
def detourOf (rnd : ℕ → K) (i : ℕ) (wp : Coord K) : Coord K :=
  ⟨wp.lat + (rnd (2 * i) - 1 / 2) * (1 / 100),
   wp.lng + (rnd (2 * i + 1) - 1 / 2) * (1 / 100)⟩

/-- The substitution test of the waypoint loop: some zone of the list
contains the probe point and has severity at least 7. -/
def hitsSevere (dist : Coord K → Coord K → K) (wp : Coord K)
    (hazardZones : List (HazardZone K)) : Bool :=
  hazardZones.any (fun h => isPointInHazardZone dist wp h && decide (7 ≤ h.severity))

/-- The body of the waypoint loop at iteration i: the interpolated point,
replaced by its detour when the substitution test fires. -/
def interiorWaypoint (dist : Coord K → Coord K → K) (rnd : ℕ → K)
    (start end_ : Coord K) (hazardZones : List (HazardZone K)) (i : ℕ) : Coord K :=
  if hitsSevere dist (lerpPoint start end_ i (segmentsOf dist start end_)) hazardZones
  then detourOf rnd i (lerpPoint start end_ i (segmentsOf dist start end_))
  else lerpPoint start end_ i (segmentsOf dist start end_)

/-- generateWaypoints of routeOptimizer.js: the start point, the loop body
for i = 1, ..., segments - 1, then the end point. -/
def generateWaypoints (dist : Coord K → Coord K → K) (rnd : ℕ → K)
    (start end_ : Coord K) (hazardZones : List (HazardZone K)) : List (Coord K) :=
  start ::
    ((List.range (segmentsOf dist start end_ - 1).toNat).map
        (fun j => interiorWaypoint dist rnd start end_ hazardZones (1 + j)) ++
      [end_])

/-- The totalDistance accumulation loop: the sum of the distances between
consecutive waypoints. -/
def pathDistance (dist : Coord K → Coord K → K) : List (Coord K) → K
  | a :: b :: rest => dist a b + pathDistance dist (b :: rest)
  | _ => 0

/-- JavaScript Math.round: round half away from positive infinity is
floor(x + 1/2) for every finite number. -/
def jsRound (x : K) : ℤ := ⌊x + 1 / 2⌋

/-- The hazard filter at the top of calculateSafeRoute: active zones of
severity at least 5. -/
def filterActive5 (hazardZones : List (HazardZone K)) : List (HazardZone K) :=
  hazardZones.filter (fun h => h.isActive && decide (5 ≤ h.severity))

/-- The projection of a zone into the reported hazardZonesAvoided entry. -/
def hazardInfoOf (h : HazardZone K) : HazardInfo :=
  ⟨h.id, h.name, h.type, h.severity⟩

/-- calculateSafeRoute of routeOptimizer.js, the try branch: filter the
hazards, generate the waypoints, sum the distances, derive duration
(Math.ceil(d / 40 * 60)), fare (5.00 + d * 1.50, rounded to cents),
the zones containing an endpoint, and the clamped safety score. -/
def calculateSafeRoute (dist : Coord K → Coord K → K) (rnd : ℕ → K)
    (start end_ : Coord K) (hazardZones : List (HazardZone K)) : RouteResult K :=
  let activeHazards := filterActive5 hazardZones
  let waypoints := generateWaypoints dist rnd start end_ activeHazards
  let totalDistance := pathDistance dist waypoints
  let hazardZonesAvoided :=
    (activeHazards.filter
        (fun h => [start, end_].any (fun p => isPointInHazardZone dist p h))).map
      hazardInfoOf
  { route := waypoints
    distance := (jsRound (totalDistance * 100) : K) / 100
    duration := ⌈totalDistance / 40 * 60⌉
    estimatedFare := (jsRound ((5 + totalDistance * (3 / 2)) * 100) : K) / 100
    hazardZonesAvoided := hazardZonesAvoided
    safetyScore := max 1 (min 10 (10 - (hazardZonesAvoided.length : ℤ) * 2)) }

/-- The catch branch of calculateSafeRoute: the direct two point route with
the same distance, duration and fare derivations and safetyScore 8. -/
def fallbackRoute (dist : Coord K → Coord K → K) (start end_ : Coord K) :
    RouteResult K :=
  let directDistance := dist start end_
  { route := [start, end_]
    distance := (jsRound (directDistance * 100) : K) / 100
    duration := ⌈directDistance / 40 * 60⌉
    estimatedFare := (jsRound ((5 + directDistance * (3 / 2)) * 100) : K) / 100
    hazardZonesAvoided := []
    safetyScore := 8 }

/-- The try body of calculateSafeRoute with its single failure source made
explicit: the hazard argument may fail to be a list (null, undefined or a
non array value), in which case iterating it throws and the body errors.
A list argument makes every remaining operation total. -/
def calculateSafeRouteTry (dist : Coord K → Coord K → K) (rnd : ℕ → K)
    (start end_ : Coord K) :
    Option (List (HazardZone K)) → Except Unit (RouteResult K)
  | some hazardZones => .ok (calculateSafeRoute dist rnd start end_ hazardZones)
  | none => .error ()

/-- calculateSafeRoute with its try/catch wrapper: any error of the body is
caught and replaced by the direct route fallback.  The return type being
RouteResult rather than Except shows no exception reaches the caller. -/
def calculateSafeRouteCaught (dist : Coord K → Coord K → K) (rnd : ℕ → K)
    (start end_ : Coord K) (hazardInput : Option (List (HazardZone K))) :
    RouteResult K :=
  match calculateSafeRouteTry dist rnd start end_ hazardInput with
  | .ok r => r
  | .error _ => fallbackRoute dist start end_

end RouteEstimator

/-- A driver row as read by the matcher (models/Driver.js): availability
flags and a nullable last known position. -/
structure Driver (K : Type) where
  id : ℕ
  userId : ℕ
  isAvailable : Bool
  isOnline : Bool
  currentLatitude : Option K
  currentLongitude : Option K
deriving DecidableEq

/-- The per candidate record built by the driverDistances map of
findNearestDriver. -/
structure DriverEntry (K : Type) where
  driver : Driver K
  distance : K
  inHazardZone : Bool
  safetyScore : ℤ
deriving DecidableEq

section DriverMatcher

variable {K : Type} [LinearOrderedField K]

/-- JavaScript truthiness of a nullable numeric field: null, undefined and
the number 0 are falsy, every other number is truthy. -/
def truthyCoord : Option K → Bool
  | none => false
  | some x => decide (x ≠ 0)

/-- The position a located driver is scored at, as the lat/lng object the
source builds from currentLatitude and currentLongitude. -/
def locOf (d : Driver K) : Coord K :=
  ⟨d.currentLatitude.getD 0, d.currentLongitude.getD 0⟩

/-- The availableDrivers query of findNearestDriver: drivers with
isAvailable and isOnline both set. -/
def availableOf (drivers : List (Driver K)) : List (Driver K) :=
  drivers.filter (fun d => d.isAvailable && d.isOnline)

/-- The driversWithLocation filter: available drivers whose two coordinate
fields are truthy. -/
def withLocationOf (drivers : List (Driver K)) : List (Driver K) :=
  (availableOf drivers).filter
    (fun d => truthyCoord d.currentLatitude && truthyCoord d.currentLongitude)

/-- One step of the driverDistances map: distance to pickup, the in hazard
test over the active zones, and the safety score, which the source computes
from the length of the whole hazard list. -/
def entryOf (dist : Coord K → Coord K → K) (pickup : Coord K)
    (hazardZones : List (HazardZone K)) (driver : Driver K) : DriverEntry K :=
  let inHazardZone := hazardZones.any (fun h =>
    h.isActive &&
      decide (dist (locOf driver) ⟨h.centerLatitude, h.centerLongitude⟩ ≤ h.radius))
  { driver := driver
    distance := dist pickup (locOf driver)
    inHazardZone := inHazardZone
    safetyScore :=
      if inHazardZone then max 1 (10 - (hazardZones.length : ℤ) * 2) else 9 }

/-- The driverDistances list of findNearestDriver. -/
def driverEntries (dist : Coord K → Coord K → K) (pickup : Coord K)
    (drivers : List (Driver K)) (hazardZones : List (HazardZone K)) :
    List (DriverEntry K) :=
  (withLocationOf drivers).map (entryOf dist pickup hazardZones)

/-- The sos comparator as a total preorder: a precedes b when the source
comparator returns a non positive number (higher safety first, then
smaller distance). -/
def sosLE (a b : DriverEntry K) : Bool :=
  if a.safetyScore = b.safetyScore then decide (a.distance ≤ b.distance)
  else decide (b.safetyScore < a.safetyScore)

/-- The normal comparator as a total preorder: smaller distance first,
then higher safety. -/
def normalLE (a b : DriverEntry K) : Bool :=
  if a.distance = b.distance then decide (b.safetyScore ≤ a.safetyScore)
  else decide (a.distance < b.distance)

/-- Insertion of an element into a sorted list, keeping earlier elements
first among ties; the building block of the stable sort below. -/
def insertSorted {α : Type} (le : α → α → Bool) (x : α) : List α → List α
  | [] => [x]
  | y :: ys => if le x y then x :: y :: ys else y :: insertSorted le x ys

/-- A stable sort by the given comparator, modelling Array.prototype.sort,
which is specified stable and produces the unique stable order for a total
preorder comparator. -/
def sortBy {α : Type} (le : α → α → Bool) : List α → List α
  | [] => []
  | x :: xs => insertSorted le x (sortBy le xs)

/-- The selection order of findNearestDriver: for sos rides the safety
filter (keep a candidate when it is not in a hazard zone or its safety
score is at least 6) strictly precedes the sos sort; for every other ride
type all candidates are sorted by the normal comparator. -/
def policyOrder (rideType : String) (entries : List (DriverEntry K)) :
    List (DriverEntry K) :=
  if rideType == "sos" then
    sortBy sosLE (entries.filter (fun d => !d.inHazardZone || decide (6 ≤ d.safetyScore)))
  else sortBy normalLE entries

/-- The maximum match distance: 20 km for sos rides, 10 km otherwise. -/
def maxDistanceFor (rideType : String) : K :=
  if rideType == "sos" then 20 else 10

/-- findNearestDriver of the driver matcher: null on an empty available
pool, null when no candidate has truthy coordinates, otherwise the driver
of the first candidate in the policy order within the distance cutoff,
or null when none is. -/
def findNearestDriver (dist : Coord K → Coord K → K) (drivers : List (Driver K))
    (pickupLat pickupLng : K) (rideType : String)
    (hazardZones : List (HazardZone K)) : Option (Driver K) :=
  if (availableOf drivers).isEmpty then none
  else if (withLocationOf drivers).isEmpty then none
  else
    ((policyOrder rideType
          (driverEntries dist ⟨pickupLat, pickupLng⟩ drivers hazardZones)).find?
        (fun d => decide (d.distance ≤ maxDistanceFor rideType))).map
      (fun e => e.driver)

/-- Spec side definition, used to state claim C3: the number of active
zones of the snapshot that contain the given point. -/
def hazardCountAtLocation (dist : Coord K → Coord K → K) (p : Coord K)
    (hazardZones : List (HazardZone K)) : ℕ :=
  (hazardZones.filter (fun h =>
      h.isActive &&
        decide (dist p ⟨h.centerLatitude, h.centerLongitude⟩ ≤ h.radius))).length

end DriverMatcher

/-- A ride row as touched by the accept endpoint of routes/rides.js. -/
structure RideRec where
  id : ℕ
  status : String
  driverId : Option ℕ
deriving DecidableEq

/-- A driver row as touched by the accept endpoint. -/
structure DriverRec where
  id : ℕ
  userId : ℕ
  isAvailable : Bool
deriving DecidableEq

/-- The store state the accept endpoint reads and writes. -/
structure DispatchState where
  rides : List RideRec
  drivers : List DriverRec
deriving DecidableEq

/-- The outcomes of the accept endpoint.  The conflict constructor exists
to express the Conflict outcome the specification requires; the code below
never produces it. -/
inductive AcceptOutcome where
  | accepted
  | rideNotFound
  | rideUnavailable
  | driverNotFound
  | conflict
deriving DecidableEq

/-- The commit path of POST /:rideId/accept in routes/rides.js: look up the
ride, reject unless its status is pending, look up the caller's driver row,
then unconditionally update the ride (driverId, status accepted) and then
the driver (isAvailable false) as two separate writes.  The driver's
current availability is never consulted and no transaction wraps the two
updates. -/
def acceptRide (st : DispatchState) (rideId userId : ℕ) :
    AcceptOutcome × DispatchState :=
  match st.rides.find? (fun r => r.id == rideId) with
  | none => (.rideNotFound, st)
  | some ride =>
    if ride.status = "pending" then
      match st.drivers.find? (fun d => d.userId == userId) with
      | none => (.driverNotFound, st)
      | some driver =>
        let rides1 := st.rides.map (fun r =>
          if r.id = ride.id then { r with driverId := some driver.id, status := "accepted" }
          else r)
        let drivers1 := st.drivers.map (fun d =>
          if d.id = driver.id then { d with isAvailable := false } else d)
        (.accepted, { rides := rides1, drivers := drivers1 })
    else (.rideUnavailable, st)

/-! Helper lemmas. -/

/-- Membership in an insertion step is membership in the inserted element
or the original list. -/
theorem mem_insertSorted {α : Type} (le : α → α → Bool) (x a : α) :
    ∀ l : List α, a ∈ insertSorted le x l ↔ a = x ∨ a ∈ l
  | [] => by simp [insertSorted]
  | y :: ys => by
    unfold insertSorted
    by_cases h : le x y = true
    · simp [h]
    · simp only [if_neg h, List.mem_cons, mem_insertSorted le x a ys]
      tauto

/-- The stable sort is a permutation at the level of membership. -/
theorem mem_sortBy {α : Type} (le : α → α → Bool) (a : α) :
    ∀ l : List α, a ∈ sortBy le l ↔ a ∈ l
  | [] => Iff.rfl
  | x :: xs => by
    unfold sortBy
    rw [mem_insertSorted, mem_sortBy le a xs, List.mem_cons]

section MatcherLemmas

variable {K : Type} [LinearOrderedField K]

/-- The policy order of an empty candidate list is empty. -/
theorem policyOrder_nil (rideType : String) :
    policyOrder rideType ([] : List (DriverEntry K)) = [] := by
  unfold policyOrder
  split <;> rfl

/-- Every entry of the policy order comes from the candidate list. -/
theorem mem_of_mem_policyOrder {rideType : String}
    {entries : List (DriverEntry K)} {e : DriverEntry K}
    (h : e ∈ policyOrder rideType entries) : e ∈ entries := by
  unfold policyOrder at h
  split at h
  · exact (List.mem_filter.mp ((mem_sortBy _ _ _).mp h)).1
  · exact (mem_sortBy _ _ _).mp h

/-- The safety score of a candidate entry, expressed through its own in
hazard flag. -/
theorem entryOf_safetyScore (dist : Coord K → Coord K → K) (pickup : Coord K)
    (hazardZones : List (HazardZone K)) (d : Driver K) :
    (entryOf dist pickup hazardZones d).safetyScore =
      if (entryOf dist pickup hazardZones d).inHazardZone
      then max 1 (10 - (hazardZones.length : ℤ) * 2) else 9 := rfl

/-- The in hazard test of the matcher holds exactly when the number of
active zones containing the candidate location is positive. -/
theorem inHazard_iff_countPos (dist : Coord K → Coord K → K) (p : Coord K)
    (hazardZones : List (HazardZone K)) :
    (hazardZones.any fun h =>
        h.isActive &&
          decide (dist p ⟨h.centerLatitude, h.centerLongitude⟩ ≤ h.radius)) = true ↔
      0 < hazardCountAtLocation dist p hazardZones := by
  unfold hazardCountAtLocation
  rw [List.any_eq_true, List.length_pos_iff_exists_mem]
  constructor
  · rintro ⟨h, hm, hp⟩
    exact ⟨h, List.mem_filter.mpr ⟨hm, hp⟩⟩
  · rintro ⟨h, hm⟩
    obtain ⟨hm', hp⟩ := List.mem_filter.mp hm
    exact ⟨h, hm', hp⟩

end MatcherLemmas

/-- The haversine intermediate value is symmetric in its two points. -/
theorem havA_comm (c1 c2 : Coord ℝ) : havA c1 c2 = havA c2 c1 := by
  unfold havA
  have hs : ∀ x y : ℝ,
      Real.sin ((x - y) * Real.pi / 180 / 2) * Real.sin ((x - y) * Real.pi / 180 / 2) =
        Real.sin ((y - x) * Real.pi / 180 / 2) * Real.sin ((y - x) * Real.pi / 180 / 2) := by
    intro x y
    have h : (x - y) * Real.pi / 180 / 2 = -((y - x) * Real.pi / 180 / 2) := by ring
    rw [h, Real.sin_neg]
    ring
  rw [hs c2.lat c1.lat, hs c2.lng c1.lng]
  ring

/-- The haversine intermediate value vanishes on a pair of equal points. -/
theorem havA_self (a : Coord ℝ) : havA a a = 0 := by
  unfold havA
  simp

/-! Claim theorems. -/

/-- Claim C8: the great circle distance is symmetric, and is zero on every
pair of equal coordinates. -/
theorem haversine_symm_and_zero (a b : Coord ℝ) :
    haversineDistance a b = haversineDistance b a ∧ haversineDistance a a = 0 := by
  constructor
  · unfold haversineDistance
    rw [havA_comm]
  · unfold haversineDistance
    rw [havA_self]
    norm_num [atan2, Real.sqrt_zero, Real.sqrt_one, Real.arctan_zero]

/-- Claim C1: the commit of a match does not execute as a guarded atomic
unit.  In a state whose only driver already has isAvailable = false (its
availability changed after selection), the accept route still reports
success, never the Conflict outcome, and still rewrites the ride row to
accepted with that driver assigned, so the state is not left unchanged. -/
theorem accept_commit_ignores_driver_availability :
    (acceptRide ⟨[⟨1, "pending", none⟩], [⟨7, 42, false⟩]⟩ 1 42).1 =
        AcceptOutcome.accepted ∧
      (acceptRide ⟨[⟨1, "pending", none⟩], [⟨7, 42, false⟩]⟩ 1 42).1 ≠
        AcceptOutcome.conflict ∧
      (acceptRide ⟨[⟨1, "pending", none⟩], [⟨7, 42, false⟩]⟩ 1 42).2 =
        ⟨[⟨1, "accepted", some 7⟩], [⟨7, 42, false⟩]⟩ ∧
      (acceptRide ⟨[⟨1, "pending", none⟩], [⟨7, 42, false⟩]⟩ 1 42).2 ≠
        ⟨[⟨1, "pending", none⟩], [⟨7, 42, false⟩]⟩ := by
  decide

/-- Claim C3, corrected: each candidate entry carries the distance to
pickup, the in hazard flag (some active zone contains the candidate
location, equivalently the count of such zones is positive), and a safety
score computed from the length of the WHOLE hazard list (active or not),
not from the count of zones containing the location: safety =
max(1, 10 - 2 * length hazardZones) when in a hazard, and 9 otherwise. -/
theorem matcher_entries_characterization {K : Type} [LinearOrderedField K]
    (dist : Coord K → Coord K → K) (pickup : Coord K)
    (drivers : List (Driver K)) (hazardZones : List (HazardZone K)) :
    driverEntries dist pickup drivers hazardZones =
      (withLocationOf drivers).map (fun d =>
        { driver := d
          distance := dist pickup (locOf d)
          inHazardZone := decide (0 < hazardCountAtLocation dist (locOf d) hazardZones)
          safetyScore :=
            if 0 < hazardCountAtLocation dist (locOf d) hazardZones
            then max 1 (10 - (hazardZones.length : ℤ) * 2) else 9 }) := by
  unfold driverEntries
  refine List.map_congr_left (fun d _ => ?_)
  have hb : (hazardZones.any fun h =>
      h.isActive &&
        decide (dist (locOf d) ⟨h.centerLatitude, h.centerLongitude⟩ ≤ h.radius)) =
      decide (0 < hazardCountAtLocation dist (locOf d) hazardZones) := by
    cases hx : (hazardZones.any fun h =>
        h.isActive &&
          decide (dist (locOf d) ⟨h.centerLatitude, h.centerLongitude⟩ ≤ h.radius)) with
    | false =>
      symm
      rw [decide_eq_false_iff_not]
      intro hc
      have := (inHazard_iff_countPos dist (locOf d) hazardZones).mpr hc
      rw [hx] at this
      cases this
    | true =>
      symm
      rw [decide_eq_true_eq]
      exact (inHazard_iff_countPos dist (locOf d) hazardZones).mp hx
  simp only [entryOf, hb, decide_eq_true_eq]

/-- Claim C3 counterexample: a driver inside exactly one active zone, with
a second far away active zone in the snapshot.  The claim formula yields
max(1, 10 - 2 * 1) = 8, but the code computes the score from the length of
the whole list and yields 6. -/
theorem matcher_safety_list_length_counterexample :
    (driverEntries (fun _ q : Coord ℚ => if q.lat = 100 then (198 : ℚ) else 0)
          ⟨1, 1⟩ [⟨1, 11, true, true, some 1, some 1⟩]
          [⟨1, "a", "flood", 5, 1, 1, 1, true⟩,
           ⟨2, "b", "fire", 5, 100, 100, 1, true⟩]).map (fun e => e.safetyScore) =
        [6] ∧
      hazardCountAtLocation (fun _ q : Coord ℚ => if q.lat = 100 then (198 : ℚ) else 0)
          (locOf ⟨1, 11, true, true, some 1, some 1⟩)
          [⟨1, "a", "flood", 5, 1, 1, 1, true⟩,
           ⟨2, "b", "fire", 5, 100, 100, 1, true⟩] = 1 ∧
      (6 : ℤ) ≠
        max 1 (10 - 2 *
          (hazardCountAtLocation
              (fun _ q : Coord ℚ => if q.lat = 100 then (198 : ℚ) else 0)
              (locOf ⟨1, 11, true, true, some 1, some 1⟩)
              [⟨1, "a", "flood", 5, 1, 1, 1, true⟩,
               ⟨2, "b", "fire", 5, 100, 100, 1, true⟩] : ℤ)) := by
  decide

/-- Claim C4: when the try body of the route estimator fails (its only
failure source being a hazard argument that is not a list), the caught
result is the fallback: the direct two point route with safetyScore 8 and
no hazard zones noted.  The caught function returns a plain RouteResult,
so no exception reaches the caller on any input. -/
theorem route_estimator_error_fallback {K : Type} [LinearOrderedField K]
    [FloorRing K] (dist : Coord K → Coord K → K) (rnd : ℕ → K)
    (start end_ : Coord K) (hazardInput : Option (List (HazardZone K)))
    (herr : calculateSafeRouteTry dist rnd start end_ hazardInput = .error ()) :
    calculateSafeRouteCaught dist rnd start end_ hazardInput =
        fallbackRoute dist start end_ ∧
      (fallbackRoute dist start end_).route = [start, end_] ∧
      (fallbackRoute dist start end_).safetyScore = 8 ∧
      (fallbackRoute dist start end_).hazardZonesAvoided = [] := by
  refine ⟨?_, rfl, rfl, rfl⟩
  unfold calculateSafeRouteCaught
  rw [herr]

/-- Claim C4 witness: the fallback contract evaluated on a concrete
malformed hazard input. -/
theorem route_estimator_error_fallback_witness :
    calculateSafeRouteCaught (fun _ _ => (0 : ℚ)) (fun _ => 0) ⟨1, 1⟩ ⟨2, 2⟩ none =
        fallbackRoute (fun _ _ => (0 : ℚ)) ⟨1, 1⟩ ⟨2, 2⟩ ∧
      (fallbackRoute (fun _ _ => (0 : ℚ)) ⟨1, 1⟩ ⟨2, 2⟩).route = [⟨1, 1⟩, ⟨2, 2⟩] ∧
      (fallbackRoute (fun _ _ => (0 : ℚ)) ⟨1, 1⟩ ⟨2, 2⟩).safetyScore = 8 ∧
      (fallbackRoute (fun _ _ => (0 : ℚ)) ⟨1, 1⟩ ⟨2, 2⟩).hazardZonesAvoided = [] :=
  route_estimator_error_fallback (fun _ _ => (0 : ℚ)) (fun _ => 0) ⟨1, 1⟩ ⟨2, 2⟩
    none rfl

/-- Claim C9: every safety score the core produces lies in the interval
from 1 to 10: the route estimator result, the fallback result, and every
candidate entry of the matcher. -/
theorem safety_scores_in_range {K : Type} [LinearOrderedField K] [FloorRing K]
    (dist : Coord K → Coord K → K) (rnd : ℕ → K) (start end_ : Coord K)
    (hazardZones : List (HazardZone K)) (pickup : Coord K)
    (drivers : List (Driver K)) :
    (1 ≤ (calculateSafeRoute dist rnd start end_ hazardZones).safetyScore ∧
        (calculateSafeRoute dist rnd start end_ hazardZones).safetyScore ≤ 10) ∧
      (1 ≤ (fallbackRoute dist start end_).safetyScore ∧
        (fallbackRoute dist start end_).safetyScore ≤ 10) ∧
      ∀ e ∈ driverEntries dist pickup drivers hazardZones,
        1 ≤ e.safetyScore ∧ e.safetyScore ≤ 10 := by
  refine ⟨⟨?_, ?_⟩, ⟨by norm_num [fallbackRoute], by norm_num [fallbackRoute]⟩, ?_⟩
  · exact le_max_left _ _
  · exact max_le (by norm_num) (min_le_left _ _)
  · intro e he
    obtain ⟨d, _, rfl⟩ := List.mem_map.mp he
    rw [entryOf_safetyScore]
    split
    · refine ⟨le_max_left _ _, max_le (by norm_num) ?_⟩
      have h2 : (0 : ℤ) ≤ (hazardZones.length : ℤ) * 2 := by positivity
      linarith
    · norm_num

/-- Claim C9 witness: the bounds evaluated on a concrete matcher entry and
a concrete route input. -/
theorem safety_scores_in_range_witness :
    1 ≤ (entryOf (fun _ _ => (0 : ℚ)) ⟨1, 1⟩ [] ⟨1, 11, true, true, some 1, some 1⟩).safetyScore ∧
      (entryOf (fun _ _ => (0 : ℚ)) ⟨1, 1⟩ [] ⟨1, 11, true, true, some 1, some 1⟩).safetyScore ≤ 10 :=
  (safety_scores_in_range (fun _ _ => (0 : ℚ)) (fun _ => 0) ⟨1, 1⟩ ⟨2, 2⟩ [] ⟨1, 1⟩
      [⟨1, 11, true, true, some 1, some 1⟩]).2.2
    (entryOf (fun _ _ => (0 : ℚ)) ⟨1, 1⟩ [] ⟨1, 11, true, true, some 1, some 1⟩)
    (by decide)

/-- Claim C5: whenever the matcher returns a driver for an sos (emergency)
request, the candidate entry it came from has safety score at least 6; the
safety filter is applied to the candidate list before the sort inside
policyOrder, so a low safety candidate can never be returned, not even
when every candidate fails the filter (then no match is returned at all). -/
theorem sos_match_safety_at_least_six {K : Type} [LinearOrderedField K]
    (dist : Coord K → Coord K → K) (drivers : List (Driver K))
    (pickupLat pickupLng : K) (hazardZones : List (HazardZone K)) (d : Driver K)
    (hd : findNearestDriver dist drivers pickupLat pickupLng "sos" hazardZones =
      some d) :
    ∃ e ∈ driverEntries dist ⟨pickupLat, pickupLng⟩ drivers hazardZones,
      e.driver = d ∧ 6 ≤ e.safetyScore := by
  unfold findNearestDriver at hd
  by_cases h1 : (availableOf drivers).isEmpty
  · rw [if_pos h1] at hd
    cases hd
  rw [if_neg h1] at hd
  by_cases h2 : (withLocationOf drivers).isEmpty
  · rw [if_pos h2] at hd
    cases hd
  rw [if_neg h2] at hd
  obtain ⟨e, hfind, hdrv⟩ := Option.map_eq_some'.mp hd
  have hmem := List.mem_of_find?_eq_some hfind
  have hmem' : e ∈ (driverEntries dist ⟨pickupLat, pickupLng⟩ drivers
      hazardZones).filter (fun d0 => !d0.inHazardZone || decide (6 ≤ d0.safetyScore)) := by
    unfold policyOrder at hmem
    rw [if_pos (by decide : ("sos" == "sos") = true)] at hmem
    exact (mem_sortBy _ _ _).mp hmem
  obtain ⟨he, hcond⟩ := List.mem_filter.mp hmem'
  refine ⟨e, he, hdrv, ?_⟩
  obtain ⟨d0, _, rfl⟩ := List.mem_map.mp he
  cases hz : (entryOf dist ⟨pickupLat, pickupLng⟩ hazardZones d0).inHazardZone with
  | false =>
    have h9 : (entryOf dist ⟨pickupLat, pickupLng⟩ hazardZones d0).safetyScore = 9 := by
      rw [entryOf_safetyScore, hz]
      rfl
    rw [h9]
    norm_num
  | true =>
    rw [hz] at hcond
    simp only [Bool.not_true, Bool.false_or, decide_eq_true_eq] at hcond
    exact hcond

/-- Claim C5 witness: a concrete sos request that matches a driver, with
the matched entry exhibited. -/
theorem sos_match_safety_at_least_six_witness :
    ∃ e ∈ driverEntries (fun _ _ => (0 : ℚ)) ⟨1, 1⟩
        [⟨1, 11, true, true, some 1, some 1⟩] [],
      e.driver = ⟨1, 11, true, true, some 1, some 1⟩ ∧ 6 ≤ e.safetyScore :=
  sos_match_safety_at_least_six (fun _ _ => (0 : ℚ))
    [⟨1, 11, true, true, some 1, some 1⟩] 1 1 []
    ⟨1, 11, true, true, some 1, some 1⟩ (by decide)

/-- Claim C6: the distance cutoffs are 20 km for sos and 10 km otherwise;
the matcher equals the first candidate of the policy order within the
cutoff (mapped to its driver); and it returns no match, rather than an
exception, when the available pool is empty, when no available driver has
truthy coordinates, and when every candidate is beyond the cutoff. -/
theorem matcher_no_match_and_first_within_cutoff {K : Type}
    [LinearOrderedField K] (dist : Coord K → Coord K → K)
    (drivers : List (Driver K)) (pickupLat pickupLng : K) (rideType : String)
    (hazardZones : List (HazardZone K)) :
    maxDistanceFor "sos" = (20 : K) ∧ maxDistanceFor "normal" = (10 : K) ∧
      findNearestDriver dist drivers pickupLat pickupLng rideType hazardZones =
        ((policyOrder rideType
              (driverEntries dist ⟨pickupLat, pickupLng⟩ drivers hazardZones)).find?
            (fun e => decide (e.distance ≤ maxDistanceFor rideType))).map
          (fun e => e.driver) ∧
      (availableOf drivers = [] →
        findNearestDriver dist drivers pickupLat pickupLng rideType hazardZones =
          none) ∧
      (withLocationOf drivers = [] →
        findNearestDriver dist drivers pickupLat pickupLng rideType hazardZones =
          none) ∧
      ((∀ e ∈ driverEntries dist ⟨pickupLat, pickupLng⟩ drivers hazardZones,
          maxDistanceFor rideType < e.distance) →
        findNearestDriver dist drivers pickupLat pickupLng rideType hazardZones =
          none) := by
  have key : findNearestDriver dist drivers pickupLat pickupLng rideType hazardZones =
      ((policyOrder rideType
            (driverEntries dist ⟨pickupLat, pickupLng⟩ drivers hazardZones)).find?
          (fun e => decide (e.distance ≤ maxDistanceFor rideType))).map
        (fun e => e.driver) := by
    unfold findNearestDriver
    by_cases h1 : (availableOf drivers).isEmpty
    · rw [if_pos h1]
      have hw : withLocationOf drivers = [] := by
        unfold withLocationOf
        rw [List.isEmpty_iff.mp h1]
        rfl
      have hent : driverEntries dist ⟨pickupLat, pickupLng⟩ drivers hazardZones = [] := by
        unfold driverEntries
        rw [hw]
        rfl
      rw [hent, policyOrder_nil]
      rfl
    · rw [if_neg h1]
      by_cases h2 : (withLocationOf drivers).isEmpty
      · rw [if_pos h2]
        have hent : driverEntries dist ⟨pickupLat, pickupLng⟩ drivers hazardZones = [] := by
          unfold driverEntries
          rw [List.isEmpty_iff.mp h2]
          rfl
        rw [hent, policyOrder_nil]
        rfl
      · rw [if_neg h2]
  refine ⟨rfl, rfl, key, ?_, ?_, ?_⟩
  · intro h
    unfold findNearestDriver
    rw [if_pos (by rw [h]; rfl)]
  · intro h
    unfold findNearestDriver
    by_cases h1 : (availableOf drivers).isEmpty
    · rw [if_pos h1]
    · rw [if_neg h1, if_pos (by rw [h]; rfl)]
  · intro hall
    rw [key]
    have hnone : (policyOrder rideType
        (driverEntries dist ⟨pickupLat, pickupLng⟩ drivers hazardZones)).find?
          (fun e => decide (e.distance ≤ maxDistanceFor rideType)) = none := by
      rw [List.find?_eq_none]
      intro x hx
      simp only [decide_eq_true_eq]
      exact not_le.mpr (hall x (mem_of_mem_policyOrder hx))
    rw [hnone]
    rfl

/-- Claim C6 witness: the no match outcome evaluated on an empty pool. -/
theorem matcher_no_match_and_first_within_cutoff_witness :
    findNearestDriver (fun _ _ => (0 : ℚ)) [] 1 1 "normal" [] = none :=
  (matcher_no_match_and_first_within_cutoff (fun _ _ => (0 : ℚ)) [] 1 1 "normal"
      []).2.2.2.1 rfl

/-- Claim C10: a driver whose stored latitude or longitude is exactly 0 is
excluded by the truthiness location filter (JavaScript treats the number 0
as falsy), so it never survives into the candidate list and can never be
the returned match. -/
theorem zero_coordinate_driver_never_matched {K : Type} [LinearOrderedField K]
    (dist : Coord K → Coord K → K) (drivers : List (Driver K))
    (pickupLat pickupLng : K) (rideType : String)
    (hazardZones : List (HazardZone K)) (d : Driver K) :
    (∀ d0 : Driver K,
        (d0.currentLatitude = some 0 ∨ d0.currentLongitude = some 0) →
          d0 ∉ withLocationOf drivers) ∧
      (findNearestDriver dist drivers pickupLat pickupLng rideType hazardZones =
          some d →
        d.currentLatitude ≠ some 0 ∧ d.currentLongitude ≠ some 0) := by
  constructor
  · rintro d0 hzero hmem
    obtain ⟨_, htr⟩ := List.mem_filter.mp hmem
    rcases hzero with h | h <;> rw [h] at htr <;> simp [truthyCoord] at htr
  · intro hd
    unfold findNearestDriver at hd
    by_cases h1 : (availableOf drivers).isEmpty
    · rw [if_pos h1] at hd
      cases hd
    rw [if_neg h1] at hd
    by_cases h2 : (withLocationOf drivers).isEmpty
    · rw [if_pos h2] at hd
      cases hd
    rw [if_neg h2] at hd
    obtain ⟨e, hfind, hdrv⟩ := Option.map_eq_some'.mp hd
    have hmem := mem_of_mem_policyOrder (List.mem_of_find?_eq_some hfind)
    obtain ⟨d0, hd0, rfl⟩ := List.mem_map.mp hmem
    have hdr : d0 = d := hdrv
    subst hdr
    obtain ⟨_, htr⟩ := List.mem_filter.mp hd0
    simp only [Bool.and_eq_true] at htr
    obtain ⟨hlat, hlng⟩ := htr
    constructor
    · intro hc
      rw [hc] at hlat
      simp [truthyCoord] at hlat
    · intro hc
      rw [hc] at hlng
      simp [truthyCoord] at hlng

/-- Claim C10 witness: a concrete pool where a driver at latitude 0 is
skipped and the other driver is returned, whose coordinates are then
nonzero. -/
theorem zero_coordinate_driver_never_matched_witness :
    (⟨1, 11, true, true, some 1, some 1⟩ : Driver ℚ).currentLatitude ≠ some 0 ∧
      (⟨1, 11, true, true, some 1, some 1⟩ : Driver ℚ).currentLongitude ≠ some 0 :=
  (zero_coordinate_driver_never_matched (fun _ _ => (0 : ℚ))
      [⟨2, 22, true, true, some 0, some 5⟩, ⟨1, 11, true, true, some 1, some 1⟩]
      1 1 "normal" [] ⟨1, 11, true, true, some 1, some 1⟩).2 (by decide)

/-- Claim C2, corrected: the route of the estimator is the start point,
then one point per interior index, then the end point; the interior point
at index 1 + j is the linear interpolation of the endpoints, replaced by
the randomly perturbed detour point exactly when some zone of the filtered
list (active, severity at least 5) both contains the interpolated point
AND has severity at least 7 (the hitsSevere test) - not for every filtered
zone as the claim states. -/
theorem route_interior_waypoint_characterization {K : Type}
    [LinearOrderedField K] [FloorRing K] (dist : Coord K → Coord K → K)
    (rnd : ℕ → K) (start end_ : Coord K) (hazardZones : List (HazardZone K))
    (j : ℕ) :
    ((calculateSafeRoute dist rnd start end_ hazardZones).route)[j + 1]? =
      if j < (segmentsOf dist start end_ - 1).toNat then
        some
          (if hitsSevere dist
              (lerpPoint start end_ (1 + j) (segmentsOf dist start end_))
              (filterActive5 hazardZones) = true then
            detourOf rnd (1 + j)
              (lerpPoint start end_ (1 + j) (segmentsOf dist start end_))
          else lerpPoint start end_ (1 + j) (segmentsOf dist start end_))
      else if j = (segmentsOf dist start end_ - 1).toNat then some end_
      else none := by
  have hroute : (calculateSafeRoute dist rnd start end_ hazardZones).route =
      generateWaypoints dist rnd start end_ (filterActive5 hazardZones) := rfl
  rw [hroute]
  unfold generateWaypoints
  rw [List.getElem?_cons_succ]
  set n := (segmentsOf dist start end_ - 1).toNat with hn
  have hlen : (List.map
      (fun j => interiorWaypoint dist rnd start end_ (filterActive5 hazardZones) (1 + j))
      (List.range n)).length = n := by simp
  rw [List.getElem?_append, hlen]
  by_cases hj : j < n
  · rw [if_pos hj, if_pos hj, List.getElem?_map, List.getElem?_range hj]
    rfl
  · rw [if_neg hj, if_neg hj]
    by_cases hj2 : j = n
    · subst hj2
      rw [Nat.sub_self, if_pos rfl]
      rfl
    · rw [if_neg hj2]
      obtain ⟨k, hk⟩ : ∃ k, j - n = k + 1 := ⟨j - n - 1, by omega⟩
      rw [hk]
      rfl

/-- Claim C2 counterexample: an interior waypoint inside a filtered zone
(active, severity 5) is NOT substituted: the produced route keeps the
unperturbed interpolated point, which differs from the perturbed detour
point the claim requires (the code only substitutes at severity 7 and
above). -/
theorem route_substitution_severity5_counterexample :
    (∃ h ∈ filterActive5 [(⟨1, "z", "flood", 5, 10, 10, 5, true⟩ : HazardZone ℚ)],
        isPointInHazardZone (fun _ _ => (4 : ℚ))
          (lerpPoint ⟨0, 0⟩ ⟨2, 2⟩ 1 (segmentsOf (fun _ _ => (4 : ℚ)) ⟨0, 0⟩ ⟨2, 2⟩))
          h = true) ∧
      ((calculateSafeRoute (fun _ _ => (4 : ℚ)) (fun _ => (1 : ℚ)) ⟨0, 0⟩ ⟨2, 2⟩
            [⟨1, "z", "flood", 5, 10, 10, 5, true⟩]).route)[1]? =
        some (lerpPoint ⟨0, 0⟩ ⟨2, 2⟩ 1
          (segmentsOf (fun _ _ => (4 : ℚ)) ⟨0, 0⟩ ⟨2, 2⟩)) ∧
      lerpPoint (⟨0, 0⟩ : Coord ℚ) ⟨2, 2⟩ 1
          (segmentsOf (fun _ _ => (4 : ℚ)) ⟨0, 0⟩ ⟨2, 2⟩) ≠
        detourOf (fun _ => (1 : ℚ)) 1
          (lerpPoint ⟨0, 0⟩ ⟨2, 2⟩ 1
            (segmentsOf (fun _ _ => (4 : ℚ)) ⟨0, 0⟩ ⟨2, 2⟩)) := by
  refine ⟨⟨⟨1, "z", "flood", 5, 10, 10, 5, true⟩, by decide, by decide⟩, ?_, ?_⟩
  · have h : segmentsOf (fun _ _ => (4 : ℚ)) ⟨0, 0⟩ ⟨2, 2⟩ = 2 := by
      unfold segmentsOf
      norm_num
    simp only [calculateSafeRoute, generateWaypoints, h, filterActive5,
      interiorWaypoint, hitsSevere, isPointInHazardZone]
    norm_num [List.range_succ]
  · have h : segmentsOf (fun _ _ => (4 : ℚ)) ⟨0, 0⟩ ⟨2, 2⟩ = 2 := by
      unfold segmentsOf
      norm_num
    rw [h]
    simp [lerpPoint, detourOf, Coord.mk.injEq]
    norm_num

/-- Claim C7, corrected: the duration is ceil(d / 40 * 60) where d is the
sum of consecutive waypoint distances of the returned route, exactly as
the claim states; the returned fare however is the claim formula
5.00 + d * 1.50 rounded to the nearest cent (Math.round(x * 100) / 100),
not the raw formula value. -/
theorem route_duration_and_fare_formulas {K : Type} [LinearOrderedField K]
    [FloorRing K] (dist : Coord K → Coord K → K) (rnd : ℕ → K)
    (start end_ : Coord K) (hazardZones : List (HazardZone K)) :
    (calculateSafeRoute dist rnd start end_ hazardZones).duration =
        ⌈pathDistance dist ((calculateSafeRoute dist rnd start end_ hazardZones).route) /
            40 * 60⌉ ∧
      (calculateSafeRoute dist rnd start end_ hazardZones).estimatedFare =
        (jsRound ((5 +
              pathDistance dist
                  ((calculateSafeRoute dist rnd start end_ hazardZones).route) *
                (3 / 2)) * 100) : K) / 100 :=
  ⟨rfl, rfl⟩

/-- Claim C7 counterexample: a route whose path length is 1/1000 km gives
the claim fare 5 + (1/1000) * 1.5 = 5.0015, but the code returns the cent
rounded value 5.00, so the returned estimatedFare is not the claim
formula. -/
theorem route_fare_rounding_counterexample :
    (calculateSafeRoute (fun _ _ => (1 / 1000 : ℚ)) (fun _ => (0 : ℚ)) ⟨0, 0⟩ ⟨1, 1⟩
          []).estimatedFare ≠
      5 +
        pathDistance (fun _ _ => (1 / 1000 : ℚ))
            ((calculateSafeRoute (fun _ _ => (1 / 1000 : ℚ)) (fun _ => (0 : ℚ)) ⟨0, 0⟩
                ⟨1, 1⟩ []).route) *
          (3 / 2) := by
  have h : segmentsOf (fun _ _ => (1 / 1000 : ℚ)) ⟨0, 0⟩ ⟨1, 1⟩ = 1 := by
    unfold segmentsOf
    rw [Int.ceil_eq_iff]
    norm_num
  simp only [calculateSafeRoute, generateWaypoints, h, filterActive5,
    List.filter_nil, jsRound]
  norm_num [pathDistance]

end UberRescue
